import Mathlib

/-!
Shallow embedding of `src/utilities/connection.py` (TwiSpider): a bounded,
thread-safe psycopg2 connection pool with a capacity semaphore, scoped
lease acquisition via the context-manager protocol, and SQL helper methods
`sql_execute`, `sql_execute_commit` and `sql_execute_values`.

Environment outcomes that depend on the external database driver
(`psycopg2.pool.ThreadedConnectionPool(...)`, `pool.getconn()`,
`cursor.execute(sql)`, `connection.commit()`) are passed in as explicit
`Except`-valued parameters: `.ok` models normal return, `.error e` models
the call raising the Python exception `e`.
-/

namespace TwiSpider

/-- A Python exception value, identified by kind and message. Propagation
"unmodified" is equality of these values. -/
inductive PyError where
  | dbError (msg : String)
  | valueError
  | configError (msg : String)
deriving DecidableEq, Repr

/-- A record of one `logger.error` / `logger.info` call. -/
inductive LogEvent where
  | error (msg : String)
  | info (msg : String)
deriving DecidableEq, Repr

/-! ## Value rendering in `sql_execute_values` -/

/-- A scalar Python value that can appear in a value tuple passed to
`sql_execute_values`: an int, a str, a `datetime` (carried as the string
`str(entry)` yields), a bool, or `None`. -/
inductive SqlValue where
  | intVal (n : Int)
  | strVal (s : String)
  | dtVal (s : String)
  | boolVal (b : Bool)
  | noneVal
deriving DecidableEq, Repr

/-- CPython `repr` of one character of a string literal, given the chosen
quote character: backslash and the quote are backslash-escaped, newline,
carriage return and tab become escape sequences, other ASCII control
characters are rendered as they would print in hex form; printable
characters stand for themselves. -/
def pyReprChar (q : Char) (c : Char) : String :=
  if c = '\\' then "\\\\"
  else if c = q then "\\" ++ q.toString
  else if c = '\n' then "\\n"
  else if c = '\r' then "\\r"
  else if c = '\t' then "\\t"
  else if c.toNat < 32 ∨ c.toNat = 127 then
    "\\x" ++ (Nat.toDigits 16 c.toNat).asString
  else c.toString

/-- CPython `repr` of a `str`: single quotes, unless the string contains a
single quote and no double quote, in which case double quotes; contents
escaped per `pyReprChar`. -/
def pyReprStr (s : String) : String :=
  let q : Char := if s.data.contains '\'' ∧ ¬ s.data.contains '"' then '"' else '\''
  q.toString ++ String.join (s.data.map (pyReprChar q)) ++ q.toString

/-- `repr(str(entry)) if isinstance(entry, datetime) else repr(entry)`:
datetimes are stringified then repr-quoted, other scalars use their own
`repr` (decimal for ints, quoted for strs, `True`/`False`/`None`). -/
def renderEntry : SqlValue → String
  | .intVal n => toString n
  | .strVal s => pyReprStr s
  | .dtVal s => pyReprStr s
  | .boolVal b => if b then "True" else "False"
  | .noneVal => "None"

/-- `", ".join([f"({', '.join(...)})" for entries in value_tuples])`:
each row rendered as a parenthesised comma-separated tuple, rows joined
with commas. -/
def valueTuplesSql (value_tuples : List (List SqlValue)) : String :=
  String.intercalate ", "
    (value_tuples.map fun entries =>
      "(" ++ String.intercalate ", " (entries.map renderEntry) ++ ")")

/-! ## Pool and lease state

`Connection._pool` and `Connection._sem_remaining` are class attributes:
`PoolSlots` models whether each is installed (with a `Nat` identity for the
underlying `ThreadedConnectionPool` / `Semaphore` object, to express
identity comparisons across construction attempts). `DbState` models the
runtime counters of the initialized pool: the capacity semaphore's
available-permit count and the number of checked-out connections. -/

/-- The singleton class attributes: `_pool` (identity of the installed
`ThreadedConnectionPool`, `none` before first construction) and
`_sem_remaining` (identity of the installed `Semaphore` paired with its
initial permit count). -/
structure PoolSlots where
  pool : Option Nat
  sem : Option (Nat × Nat)
deriving DecidableEq, Repr

/-- The runtime pool counters: `semCount` is the capacity semaphore's
current available-permit count, `outstanding` is the number of connections
checked out of the pool and not yet returned. -/
structure DbState where
  semCount : Nat
  outstanding : Nat
deriving DecidableEq, Repr

/-- Python `int()` applied to a decimal string: optional surrounding
whitespace, an optional sign, then at least one digit; anything else
raises `ValueError` (modelled as `none`). -/
def pyInt? (s : String) : Option Int :=
  let t := ((s.data.dropWhile Char.isWhitespace).reverse.dropWhile Char.isWhitespace).reverse
  let signDigits : Int × List Char :=
    match t with
    | '-' :: rest => (-1, rest)
    | '+' :: rest => (1, rest)
    | rest => (1, rest)
  if signDigits.2 ≠ [] ∧ signDigits.2.all Char.isDigit then
    some (signDigits.1 *
      (signDigits.2.foldl (fun acc c => 10 * acc + (c.toNat - '0'.toNat)) (0 : Nat) : Nat))
  else none

/-- `int(self.config().get('maxconn', 4))`: the `maxconn` entry of the
configuration mapping interpreted by Python `int()` (raising `ValueError`
on a non-numeric string), defaulting to the integer `4` when the key is
absent. -/
def semPermits (params : List (String × String)) : Except PyError Int :=
  match params.lookup "maxconn" with
  | some v =>
    match pyInt? v with
    | some n => Except.ok n
    | none => Except.error PyError.valueError
  | none => Except.ok 4

/-- One construction attempt `Connection()` and the environment outcomes it
meets: the result of `parse(DATABASE_CONFIG_PATH, 'postgresql')` (raising a
configuration error or yielding the parameter mapping), the result of
`psycopg2.pool.ThreadedConnectionPool(**config)` (raising a connection
error or yielding a fresh manager, identified by a `Nat`), and the identity
of the `threading.Semaphore` that would be freshly created. -/
structure InitAttempt where
  parseResult : Except PyError (List (String × String))
  connectResult : Except PyError Nat
  semId : Nat

/-- `Connection.__init__` (the body runs under the `synchronized` lock, so
concurrent attempts are serialized and modelled as sequential calls):
if `Connection._pool` is already set, do nothing; otherwise evaluate
`self.config()`, construct the `ThreadedConnectionPool` and assign it to
`_pool`, then construct `threading.Semaphore(int(self.config().get('maxconn', 4)))`
and assign it to `_sem_remaining` (`Semaphore` raises `ValueError` on a
negative permit count). A raised exception leaves every assignment that had
not yet executed unperformed. Returns the call's outcome and the updated
class attributes. -/
def connInit (a : InitAttempt) (st : PoolSlots) : Except PyError Unit × PoolSlots :=
  if st.pool.isSome then (Except.ok (), st)
  else
    match a.parseResult with
    | Except.error e => (Except.error e, st)
    | Except.ok params =>
      match a.connectResult with
      | Except.error e => (Except.error e, st)
      | Except.ok poolId =>
        let st1 : PoolSlots := { st with pool := some poolId }
        match semPermits params with
        | Except.error e => (Except.error e, st1)
        | Except.ok n =>
          if n < 0 then (Except.error PyError.valueError, st1)
          else (Except.ok (), { st1 with sem := some (a.semId, n.toNat) })

/-- A sequence of construction attempts run back to back (the
`synchronized` decorator on `__init__` serializes them), tracking only the
class-attribute state. -/
def runInits (attempts : List InitAttempt) (st : PoolSlots) : PoolSlots :=
  attempts.foldl (fun s a => (connInit a s).2) st

/-! ## Scoped lease acquisition (`__enter__` / `__exit__`) -/

/-- `Connection.__enter__`: blocks on `Connection._sem_remaining.acquire(blocking=True)`
— modelled as returning `none` (never returns) when no permit is available —
then calls `Connection._pool.getconn()`. The permit is consumed before
`getconn` runs; if `getconn` raises, the exception propagates out of
`__enter__` with the permit already consumed and no connection checked out.
`getconnOutcome` is the environment outcome of `getconn` (a connection
identity or a raised error). -/
def connEnter (getconnOutcome : Except PyError Nat) (s : DbState) :
    Option (Except PyError Nat × DbState) :=
  if 0 < s.semCount then
    match getconnOutcome with
    | Except.ok c => some (Except.ok c, ⟨s.semCount - 1, s.outstanding + 1⟩)
    | Except.error e => some (Except.error e, ⟨s.semCount - 1, s.outstanding⟩)
  else none

/-- `Connection.__exit__`: `Connection._pool.putconn(self.conn)` returns the
checked-out connection, then `Connection._sem_remaining.release()` returns
the permit. -/
def connExit (s : DbState) : DbState :=
  ⟨s.semCount + 1, s.outstanding - 1⟩

/-- `with Connection() as connection: body` under Python's context-manager
semantics: if `__enter__` raises, `__exit__` is *not* called and the
exception propagates; if `__enter__` returns, `__exit__` runs on every exit
of the body — normal or raising — and, returning `None` (falsy), never
suppresses the body's exception, which then propagates unmodified. -/
def withConnection (getconnOutcome : Except PyError Nat)
    (body : Nat → Except PyError α) (s : DbState) :
    Option (Except PyError α × DbState) :=
  match connEnter getconnOutcome s with
  | none => none
  | some (Except.error e, s1) => some (Except.error e, s1)
  | some (Except.ok c, s1) => some (body c, connExit s1)

/-! ## SQL helpers -/

/-- `pat in s` for Python strings: `pat` occurs as a contiguous substring
of `s`. -/
def strIn (pat s : String) : Bool :=
  go s.data
where
  go : List Char → Bool
    | [] => pat.data.isPrefixOf ([] : List Char)
    | c :: cs => pat.data.isPrefixOf (c :: cs) || go cs

/-- Python `sql.upper()` restricted to ASCII letters, the alphabet of the
SQL texts the module handles. -/
def pyUpper (s : String) : String :=
  String.mk (s.data.map Char.toUpper)

/-- `any([keyword in sql.upper() for keyword in ["INSERT", "UPDATE"]])`:
the mutating-keyword guard of `sql_execute`. -/
def mutationGuard (sql : String) : Bool :=
  ["INSERT", "UPDATE"].any fun keyword => strIn keyword (pyUpper sql)

/-- The message passed to `logger.error` when the guard fires. -/
def guardErrorMsg : String :=
  "You are running INSERT or UPDATE without committing, transaction aborted. Please retry with sql_execute_commit"

/-- `Connection.sql_execute(sql)`: if the upper-cased text contains
`INSERT` or `UPDATE`, log an error and return `iter([])` without touching
the pool; otherwise run `cursor.execute(sql); rows = cursor.fetchall()`
inside `with Connection()` and return `iter(rows)`. The result quadruple is
(returned value or propagated error, final pool state, whether a lease was
taken, log events); `none` means the call blocked forever on the capacity
semaphore. `execOutcome` is the environment outcome of execute-and-fetch:
the fetched row list, or the error `cursor.execute` raises. -/
def sql_execute (sql : String) (getconnOutcome : Except PyError Nat)
    (execOutcome : Except PyError (List ρ)) (s : DbState) :
    Option (Except PyError (List ρ) × DbState × Bool × List LogEvent) :=
  if mutationGuard sql then
    some (Except.ok [], s, false, [LogEvent.error guardErrorMsg])
  else
    match withConnection getconnOutcome (fun _ => execOutcome) s with
    | none => none
    | some (r, s1) => some (r, s1, true, [])

/-- `Connection.sql_execute_commit(sql)`: inside `with Connection()`, run
`cursor.execute(sql)` then `connection.commit()`; any raised error
propagates after `__exit__` has run. `execOutcome` / `commitOutcome` are
the environment outcomes of the two driver calls; the second runs only if
the first returned normally. -/
def sql_execute_commit (sql : String) (getconnOutcome : Except PyError Nat)
    (execOutcome commitOutcome : Except PyError Unit) (s : DbState) :
    Option (Except PyError Unit × DbState) :=
  withConnection getconnOutcome
    (fun _ =>
      match execOutcome with
      | Except.error e => Except.error e
      | Except.ok () => commitOutcome) s

/-- `Connection.sql_execute_values(sql, value_tuples, ignore_duplicate=True)`:
render the value tuples; if the rendered text is non-empty (truthy), run
`sql += " " + value_tuples_sql + f" ON CONFLICT DO NOTHING" if ignore_duplicate else ""`
— by Python precedence the whole concatenation is the conditional's true
arm, so when `ignore_duplicate` is false the empty string is appended — and
delegate the resulting statement to `sql_execute_commit`; otherwise only
log `"[DATABASE] Nothing to commit"`. The result also records the list of
statements handed to `sql_execute_commit` and the log events. -/
def sql_execute_values (sql : String) (value_tuples : List (List SqlValue))
    (ignore_duplicate : Bool) (getconnOutcome : Except PyError Nat)
    (execOutcome commitOutcome : Except PyError Unit) (s : DbState) :
    Option (Except PyError Unit × DbState × List String × List LogEvent) :=
  let value_tuples_sql := valueTuplesSql value_tuples
  if value_tuples_sql ≠ "" then
    let sql1 := sql ++
      (if ignore_duplicate then " " ++ value_tuples_sql ++ " ON CONFLICT DO NOTHING" else "")
    match sql_execute_commit sql1 getconnOutcome execOutcome commitOutcome s with
    | none => none
    | some (r, s1) => some (r, s1, [sql1], [])
  else
    some (Except.ok (), s, [], [LogEvent.info "[DATABASE] Nothing to commit"])

/-! ## Raw unmanaged connections (`__call__`) -/

/-- Modelled from the spec: `utilities.ini_parser.parse` is not under
`src/`; per the spec, raw connections are opened "using all configured
parameters except the pool-sizing fields" — `parse` with
`unwanted_fields=["minconn", "maxconn"]` yields the configuration mapping
with those keys removed. -/
def parseWithUnwanted (raw : List (String × String)) (unwantedFields : List String) :
    List (String × String) :=
  raw.filter fun kv => !(unwantedFields.contains kv.1)

/-- The value returned by `Connection.__call__`: a fresh connection (its
identity) together with the connection parameters `psycopg2.connect`
received. -/
structure RawConn where
  conn : Nat
  usedParams : List (String × String)
deriving DecidableEq, Repr

/-- `Connection.__call__`: `psycopg2.connect(**parse(DATABASE_CONFIG_PATH,
'postgresql', unwanted_fields=["minconn", "maxconn"]))` — opens a brand-new
connection from the configured parameters minus the pool-sizing fields and
returns it; the class-attribute slots and the pool counters appear only as
pass-through state, which the method never reads or writes. -/
def connCall (raw : List (String × String)) (freshConn : Nat)
    (slots : PoolSlots) (s : DbState) : RawConn × PoolSlots × DbState :=
  ({ conn := freshConn, usedParams := parseWithUnwanted raw ["minconn", "maxconn"] },
   slots, s)

/-! ## The lease-count state machine -/

/-- One step of the initialized pool's lease protocol: `acquire` is a
completed `__enter__` (semaphore permit consumed, then a connection checked
out), enabled only when a permit is available since `acquire(blocking=True)`
blocks otherwise; `release` is `__exit__` of a held lease (connection
returned, then permit released), so it requires an outstanding lease. -/
inductive LeaseStep : DbState → DbState → Prop where
  | acquire (s : DbState) (h : 0 < s.semCount) :
      LeaseStep s ⟨s.semCount - 1, s.outstanding + 1⟩
  | release (s : DbState) (h : 0 < s.outstanding) :
      LeaseStep s ⟨s.semCount + 1, s.outstanding - 1⟩

/-- The pool state right after successful initialization with `maxConn`
semaphore permits: all permits available, no lease outstanding. -/
def initialDbState (maxConn : Nat) : DbState :=
  ⟨maxConn, 0⟩

/-- States reachable from `s` by any interleaving of lease steps. -/
def LeaseReachable (s t : DbState) : Prop :=
  Relation.ReflTransGen LeaseStep s t

/-! ## Theorems -/

/-- Returning a lease undoes acquiring it: `__exit__` applied to the state
produced by a completed `__enter__` restores the original counters,
provided a permit was available to acquire. -/
theorem connExit_after_enter (s : DbState) (hs : 0 < s.semCount) :
    connExit ⟨s.semCount - 1, s.outstanding + 1⟩ = s := by
  cases s with
  | mk c o =>
    have hc : 0 < c := hs
    show (⟨c - 1 + 1, o + 1 - 1⟩ : DbState) = ⟨c, o⟩
    congr 1 <;> omega

/-- C1 evaluation: at `baseSQL = "INSERT INTO t(a,b) VALUES"`, rows
`[(1, 'x'), (2, 'y')]` and `ignoreDuplicate = false`, `sql_execute_values`
hands `sql_execute_commit` the bare base SQL: the rendered value tuples are
dropped from the executed statement (the Python conditional expression
swallows the whole concatenation), contradicting the claim that the tuples
are still present without the conflict clause. -/
theorem sql_execute_values_drops_tuples_without_ignore :
    sql_execute_values "INSERT INTO t(a,b) VALUES"
        [[SqlValue.intVal 1, SqlValue.strVal "x"], [SqlValue.intVal 2, SqlValue.strVal "y"]]
        false (Except.ok 0) (Except.ok ()) (Except.ok ()) ⟨4, 0⟩
      = some (Except.ok (), ⟨4, 0⟩, ["INSERT INTO t(a,b) VALUES"], [])
    ∧ valueTuplesSql
        [[SqlValue.intVal 1, SqlValue.strVal "x"], [SqlValue.intVal 2, SqlValue.strVal "y"]]
      = "(1, 'x'), (2, 'y')"
    ∧ strIn "(1, 'x')" "INSERT INTO t(a,b) VALUES" = false := by
  refine ⟨rfl, by decide, rfl⟩

/-- C2: when the driver raises during execution or commit inside
`sql_execute_commit`, or during execution inside `sql_execute` (on a
non-guarded statement), the same error value propagates to the caller and
the lease is released first: the final pool counters equal the initial
ones (connection returned, permit released). -/
theorem error_propagates_lease_released (sqlW sqlR : String) (cid : Nat)
    (e : PyError) (commitOutcome : Except PyError Unit) (s : DbState)
    (hs : 0 < s.semCount) (hg : mutationGuard sqlR = false) :
    sql_execute_commit sqlW (Except.ok cid) (Except.error e) commitOutcome s
      = some (Except.error e, s)
    ∧ sql_execute_commit sqlW (Except.ok cid) (Except.ok ()) (Except.error e) s
      = some (Except.error e, s)
    ∧ sql_execute sqlR (Except.ok cid) (Except.error e : Except PyError (List Nat)) s
      = some (Except.error e, s, true, []) := by
  have hx := connExit_after_enter s hs
  refine ⟨?_, ?_, ?_⟩ <;>
    simp [sql_execute_commit, sql_execute, withConnection, connEnter, hs, hg, hx]

/-- C3: `sql_execute` on a statement whose upper-cased text contains
`INSERT` or `UPDATE` takes no lease, logs the error message and returns the
empty row sequence without raising, whatever the environment outcomes; on
any other statement it takes a lease, executes, returns exactly the fetched
rows, and the final pool counters equal the initial ones (lease released
before returning). -/
theorem sql_execute_guard_and_read (sqlBad sqlOk : String) (cid : Nat)
    (rows : List Nat) (g1 : Except PyError Nat) (ex1 : Except PyError (List Nat))
    (s : DbState)
    (hbad : strIn "INSERT" (pyUpper sqlBad) = true ∨ strIn "UPDATE" (pyUpper sqlBad) = true)
    (hok : strIn "INSERT" (pyUpper sqlOk) = false ∧ strIn "UPDATE" (pyUpper sqlOk) = false)
    (hs : 0 < s.semCount) :
    sql_execute sqlBad g1 ex1 s
      = some (Except.ok [], s, false, [LogEvent.error guardErrorMsg])
    ∧ sql_execute sqlOk (Except.ok cid) (Except.ok rows) s
      = some (Except.ok rows, s, true, []) := by
  have hx := connExit_after_enter s hs
  have hbad' : mutationGuard sqlBad = true := by
    rcases hbad with h | h <;> simp [mutationGuard, h]
  have hok' : mutationGuard sqlOk = false := by
    simp [mutationGuard, hok.1, hok.2]
  exact ⟨by simp [sql_execute, hbad'],
         by simp [sql_execute, hok', withConnection, connEnter, hs, hx]⟩

/-- C8: with an empty rows list, `sql_execute_values` hands no statement to
`sql_execute_commit`, leaves the pool counters untouched (no lease), logs
only the no-op notice, and returns normally — for every base SQL, either
value of `ignore_duplicate`, and all environment outcomes. -/
theorem empty_rows_no_database_call (sql : String) (ignore_duplicate : Bool)
    (g : Except PyError Nat) (ex cm : Except PyError Unit) (s : DbState) :
    sql_execute_values sql [] ignore_duplicate g ex cm s
      = some (Except.ok (), s, [], [LogEvent.info "[DATABASE] Nothing to commit"]) := by
  rfl

/-- C10: if `getconn` raises after the semaphore permit was acquired in
`__enter__`, the `with` statement never runs `__exit__`: the error
propagates, the available-permit count ends one less than it began, and
the outstanding-lease count is unchanged (no connection was checked out) —
the permit is leaked. -/
theorem getconn_failure_leaks_permit (e : PyError)
    (body : Nat → Except PyError Unit) (s : DbState) (hs : 0 < s.semCount) :
    withConnection (Except.error e) body s
      = some (Except.error e, ⟨s.semCount - 1, s.outstanding⟩)
    ∧ (⟨s.semCount - 1, s.outstanding⟩ : DbState).semCount + 1 = s.semCount
    ∧ (⟨s.semCount - 1, s.outstanding⟩ : DbState).outstanding = s.outstanding := by
  refine ⟨by simp [withConnection, connEnter, hs], by simp; omega, rfl⟩

/-- C4: a successful first construction from the uninitialized state
installs the freshly built pool manager and semaphore; afterwards, with the
pool slot occupied, any sequence of further construction attempts — made
sequential by the `synchronized` initialization lock — returns normally and
leaves the class attributes exactly as they were (same manager identity,
same semaphore identity). -/
theorem pool_constructed_at_most_once (a b : InitAttempt)
    (params : List (String × String)) (pid : Nat) (n : Int)
    (attempts : List InitAttempt) (st : PoolSlots)
    (hp : a.parseResult = Except.ok params) (hc : a.connectResult = Except.ok pid)
    (hn : semPermits params = Except.ok n) (hnn : 0 ≤ n)
    (hst : st.pool.isSome) :
    connInit a ⟨none, none⟩ = (Except.ok (), ⟨some pid, some (a.semId, n.toNat)⟩)
    ∧ connInit b st = (Except.ok (), st)
    ∧ runInits attempts st = st := by
  have later : ∀ c : InitAttempt, ∀ t : PoolSlots, t.pool.isSome →
      connInit c t = (Except.ok (), t) := by
    intro c t ht
    simp [connInit, ht]
  have all : ∀ (as : List InitAttempt) (t : PoolSlots), t.pool.isSome →
      runInits as t = t := by
    intro as
    induction as with
    | nil => intro t _; rfl
    | cons c cs ih =>
      intro t ht
      show runInits cs (connInit c t).2 = t
      rw [later c t ht]
      exact ih t ht
  have hlt : ¬ n < 0 := by omega
  exact ⟨by simp [connInit, hp, hc, hn, hlt], later b st hst, all attempts st hst⟩

/-- C4 witness at a concrete first attempt (`maxconn = 7`, manager identity
5, semaphore identity 9) followed by one more attempt against the
installed state. -/
theorem pool_constructed_at_most_once_witness :
    connInit ⟨Except.ok [("maxconn", "7")], Except.ok 5, 9⟩ ⟨none, none⟩
      = (Except.ok (), ⟨some 5, some (9, (7 : Int).toNat)⟩)
    ∧ connInit ⟨Except.ok [], Except.ok 6, 10⟩ ⟨some 5, some (9, 7)⟩
      = (Except.ok (), ⟨some 5, some (9, 7)⟩)
    ∧ runInits [⟨Except.ok [], Except.ok 6, 10⟩] ⟨some 5, some (9, 7)⟩
      = ⟨some 5, some (9, 7)⟩ :=
  pool_constructed_at_most_once
    ⟨Except.ok [("maxconn", "7")], Except.ok 5, 9⟩ ⟨Except.ok [], Except.ok 6, 10⟩
    [("maxconn", "7")] 5 7 [⟨Except.ok [], Except.ok 6, 10⟩] ⟨some 5, some (9, 7)⟩
    rfl rfl rfl (by decide) (by decide)

/-- C5: when the configuration parse raises, or parses but the underlying
manager's construction raises, `connInit` from the uninitialized state
propagates that very error and installs nothing: both class-attribute
slots are still empty, so the next attempt takes the initialization path
again from scratch. -/
theorem failed_init_installs_nothing (a : InitAttempt) (e : PyError)
    (h : a.parseResult = Except.error e ∨
      ∃ params, a.parseResult = Except.ok params ∧ a.connectResult = Except.error e) :
    connInit a ⟨none, none⟩ = (Except.error e, ⟨none, none⟩) := by
  rcases h with hp | ⟨params, hp, hc⟩
  · simp [connInit, hp]
  · simp [connInit, hp, hc]

/-- C5 witness: a parse failure at first construction. -/
theorem failed_init_installs_nothing_witness :
    connInit ⟨Except.error (PyError.configError "missing host"), Except.ok 5, 9⟩
        ⟨none, none⟩
      = (Except.error (PyError.configError "missing host"), ⟨none, none⟩) :=
  failed_init_installs_nothing
    ⟨Except.error (PyError.configError "missing host"), Except.ok 5, 9⟩
    (PyError.configError "missing host") (Or.inl rfl)

/-- One lease step conserves the sum of available permits and outstanding
leases: an acquire moves one unit from `semCount` to `outstanding`, a
release moves it back. -/
theorem leaseStep_conserves_permits (maxConn : Nat) {s t : DbState}
    (step : LeaseStep s t) (h : s.semCount + s.outstanding = maxConn) :
    t.semCount + t.outstanding = maxConn := by
  cases step with
  | acquire hs =>
    show s.semCount - 1 + (s.outstanding + 1) = maxConn
    omega
  | release hs =>
    show s.semCount + 1 + (s.outstanding - 1) = maxConn
    omega

/-- C6: in every state reachable from the initialized pool state by any
interleaving of `__enter__` / `__exit__` steps, the number of outstanding
leases never exceeds the configured maximum: each acquire consumes one
permit before checking out a connection and each release returns the
connection and the permit, so `semCount + outstanding` is conserved. -/
theorem outstanding_leases_bounded (maxConn : Nat) (s : DbState)
    (h : LeaseReachable (initialDbState maxConn) s) :
    s.outstanding ≤ maxConn := by
  have h' : Relation.ReflTransGen LeaseStep (initialDbState maxConn) s := h
  clear h
  suffices key : s.semCount + s.outstanding = maxConn by omega
  induction h' with
  | refl => simp [initialDbState]
  | tail hst step ih => exact leaseStep_conserves_permits maxConn step ih

/-- C6 witness: after one acquire step from a 4-permit pool, at most 4
leases are outstanding. -/
theorem outstanding_leases_bounded_witness :
    (⟨3, 1⟩ : DbState).outstanding ≤ 4 :=
  outstanding_leases_bounded 4 ⟨3, 1⟩
    (Relation.ReflTransGen.single (LeaseStep.acquire (initialDbState 4) (by decide)))

/-- C7: on first construction, the semaphore is created with
`int(maxconn)` permits when the configuration carries a `maxconn` entry,
and with 4 permits when it does not. -/
theorem semaphore_permits_from_config (params params2 : List (String × String))
    (pid sid : Nat) (v : String) (n : Int)
    (hv : params.lookup "maxconn" = some v) (hn : pyInt? v = some n) (hnn : 0 ≤ n)
    (hnone : params2.lookup "maxconn" = none) :
    connInit ⟨Except.ok params, Except.ok pid, sid⟩ ⟨none, none⟩
      = (Except.ok (), ⟨some pid, some (sid, n.toNat)⟩)
    ∧ connInit ⟨Except.ok params2, Except.ok pid, sid⟩ ⟨none, none⟩
      = (Except.ok (), ⟨some pid, some (sid, 4)⟩) := by
  have hlt : ¬ n < 0 := by omega
  constructor
  · simp [connInit, semPermits, hv, hn, hlt]
  · simp [connInit, semPermits, hnone]

/-- C7 witness: `maxconn = "7"` yields 7 permits; a configuration without
`maxconn` yields 4. -/
theorem semaphore_permits_from_config_witness :
    connInit ⟨Except.ok [("maxconn", "7")], Except.ok 5, 9⟩ ⟨none, none⟩
      = (Except.ok (), ⟨some 5, some (9, (7 : Int).toNat)⟩)
    ∧ connInit ⟨Except.ok [("host", "db.local")], Except.ok 5, 9⟩ ⟨none, none⟩
      = (Except.ok (), ⟨some 5, some (9, 4)⟩) :=
  semaphore_permits_from_config [("maxconn", "7")] [("host", "db.local")]
    5 9 "7" 7 (by decide) (by decide) (by decide) (by decide)

/-- C9: `__call__` leaves the class-attribute slots and the pool counters
exactly as they were, returns the freshly opened connection, and the
parameters handed to `psycopg2.connect` are precisely the configured ones
whose keys are neither `minconn` nor `maxconn`, in order. -/
theorem raw_connection_is_frame (raw : List (String × String)) (freshConn : Nat)
    (slots : PoolSlots) (s : DbState) :
    (connCall raw freshConn slots s).2.1 = slots
    ∧ (connCall raw freshConn slots s).2.2 = s
    ∧ (connCall raw freshConn slots s).1.conn = freshConn
    ∧ ∀ kv, kv ∈ (connCall raw freshConn slots s).1.usedParams ↔
        kv ∈ raw ∧ kv.1 ≠ "minconn" ∧ kv.1 ≠ "maxconn" := by
  refine ⟨rfl, rfl, rfl, ?_⟩
  intro kv
  simp [connCall, parseWithUnwanted, List.mem_filter]

/-- C2 witness: a duplicate-key error raised by `cursor.execute`, by
`connection.commit`, and by a read's `cursor.execute`, at a 4-permit pool. -/
theorem error_propagates_lease_released_witness :
    sql_execute_commit "INSERT INTO t VALUES (1)" (Except.ok 0)
        (Except.error (PyError.dbError "duplicate key")) (Except.ok ()) ⟨4, 0⟩
      = some (Except.error (PyError.dbError "duplicate key"), ⟨4, 0⟩)
    ∧ sql_execute_commit "INSERT INTO t VALUES (1)" (Except.ok 0) (Except.ok ())
        (Except.error (PyError.dbError "duplicate key")) ⟨4, 0⟩
      = some (Except.error (PyError.dbError "duplicate key"), ⟨4, 0⟩)
    ∧ sql_execute "SELECT 1" (Except.ok 0)
        (Except.error (PyError.dbError "duplicate key") : Except PyError (List Nat)) ⟨4, 0⟩
      = some (Except.error (PyError.dbError "duplicate key"), ⟨4, 0⟩, true, []) :=
  error_propagates_lease_released "INSERT INTO t VALUES (1)" "SELECT 1" 0
    (PyError.dbError "duplicate key") (Except.ok ()) ⟨4, 0⟩ (by decide) (by decide)

/-- C3 witness: an `UPDATE` is refused with an error log and empty result;
a `SELECT` takes a lease, returns the fetched rows and restores the
counters. -/
theorem sql_execute_guard_and_read_witness :
    sql_execute "UPDATE t SET x=1" (Except.ok 0)
        (Except.ok [3] : Except PyError (List Nat)) ⟨4, 0⟩
      = some (Except.ok [], ⟨4, 0⟩, false, [LogEvent.error guardErrorMsg])
    ∧ sql_execute "SELECT * FROM t" (Except.ok 0)
        (Except.ok [3] : Except PyError (List Nat)) ⟨4, 0⟩
      = some (Except.ok [3], ⟨4, 0⟩, true, []) :=
  sql_execute_guard_and_read "UPDATE t SET x=1" "SELECT * FROM t" 0 [3]
    (Except.ok 0) (Except.ok [3]) ⟨4, 0⟩ (Or.inr (by decide))
    ⟨by decide, by decide⟩ (by decide)

/-- C10 witness: `getconn` raising at a 4-permit pool leaves 3 available
permits and no outstanding lease. -/
theorem getconn_failure_leaks_permit_witness :
    withConnection (Except.error (PyError.dbError "pool exhausted"))
        (fun _ => (Except.ok () : Except PyError Unit)) ⟨4, 0⟩
      = some (Except.error (PyError.dbError "pool exhausted"), ⟨3, 0⟩)
    ∧ (⟨3, 0⟩ : DbState).semCount + 1 = (⟨4, 0⟩ : DbState).semCount
    ∧ (⟨3, 0⟩ : DbState).outstanding = (⟨4, 0⟩ : DbState).outstanding :=
  getconn_failure_leaks_permit (PyError.dbError "pool exhausted")
    (fun _ => Except.ok ()) ⟨4, 0⟩ (by decide)

end TwiSpider
